import Mathlib

/-!
Verification of the fastjsmcp MCP server runtime.

This file gives a shallow embedding, in Lean 4, of the session/transport
multiplexing layer and the request-dispatch engine of the repository
(src/core/fastmcp.ts, src/transport/streamable.ts, src/utils/index.ts),
and proves the testable properties stated in the specification against it.

Modelling conventions:
- JavaScript `Map`/`Record` objects become association lists (`Table`) with
  overwrite-on-set semantics, mirroring `Map.set` / property assignment.
- A JavaScript function that can `throw` becomes a Lean function returning
  `Except String _`; the thrown message is carried in the error.
- Handler side effects are modelled by threading an explicit state `σ`
  through every handler invocation, so "the handler never ran" is the
  statement that the state is unchanged.
- `async`/`await` code is modelled by splitting it into atomic steps at its
  suspension points where interleaving matters (session teardown); code with
  no observable interleaving is modelled as a single function.
-/

/-- Association table keyed by strings, mirroring a JavaScript `Map` or a
plain `Record` used as a dictionary. -/
abbrev Table (β : Type) : Type := List (String × β)

namespace Table

/-- The empty table (`new Map()` / `{}` as an empty record). -/
def empty {β : Type} : Table β := []

/-- Lookup, mirroring `map.get(k)` / `record[k]`. -/
def lookup {β : Type} (t : Table β) (k : String) : Option β :=
  match t with
  | [] => none
  | (k₁, v₁) :: rest => if k₁ = k then some v₁ else lookup rest k

/-- Insert-or-overwrite, mirroring `map.set(k, v)` / `record[k] = v`. -/
def set {β : Type} (t : Table β) (k : String) (v : β) : Table β :=
  match t with
  | [] => [(k, v)]
  | (k₁, v₁) :: rest => if k₁ = k then (k, v) :: rest else (k₁, v₁) :: set rest k v

/-- Removal, mirroring `map.delete(k)` / `delete record[k]`.  JavaScript maps
have unique keys; removing every binding of `k` coincides with that behaviour
on the unique-key tables the transport actually builds. -/
def erase {β : Type} (t : Table β) (k : String) : Table β :=
  match t with
  | [] => []
  | (k₁, v₁) :: rest => if k₁ = k then erase rest k else (k₁, v₁) :: erase rest k

@[simp] theorem lookup_empty {β : Type} (k : String) :
    (empty : Table β).lookup k = none := rfl

@[simp] theorem lookup_set_self {β : Type} (t : Table β) (k : String) (v : β) :
    (t.set k v).lookup k = some v := by
  induction t with
  | nil => simp [set, lookup]
  | cons hd tl ih =>
      obtain ⟨k₁, v₁⟩ := hd
      by_cases h : k₁ = k <;> simp [set, lookup, h, ih]

@[simp] theorem lookup_set_ne {β : Type} (t : Table β) (k k₂ : String) (v : β)
    (h : k ≠ k₂) : (t.set k v).lookup k₂ = t.lookup k₂ := by
  induction t with
  | nil => simp [set, lookup, h]
  | cons hd tl ih =>
      obtain ⟨k₁, v₁⟩ := hd
      by_cases h₁ : k₁ = k
      · subst h₁
        simp [set, lookup, h, Ne.symm h]
      · simp [set, lookup, h₁, ih]

@[simp] theorem lookup_erase_self {β : Type} (t : Table β) (k : String) :
    (t.erase k).lookup k = none := by
  induction t with
  | nil => simp [erase, lookup]
  | cons hd tl ih =>
      obtain ⟨k₁, v₁⟩ := hd
      by_cases h : k₁ = k
      · simpa [erase, h] using ih
      · simp [erase, lookup, h, ih]

@[simp] theorem lookup_erase_ne {β : Type} (t : Table β) (k k₂ : String)
    (h : k ≠ k₂) : (t.erase k).lookup k₂ = t.lookup k₂ := by
  induction t with
  | nil => simp [erase, lookup]
  | cons hd tl ih =>
      obtain ⟨k₁, v₁⟩ := hd
      by_cases h₁ : k₁ = k
      · subst h₁
        simp [erase, lookup, h, ih, Ne.symm h]
      · by_cases h₂ : k₁ = k₂ <;> simp [erase, lookup, h₁, h₂, ih, Ne.symm h]

end Table

/-! ## JSON values

Request arguments and payloads are JSON.  The tools in this repository use
flat object schemas (see src/examples), so a two-level value type (primitives,
plus arrays/objects of primitives) is enough to express every argument value
the dispatcher inspects. -/

/-- A primitive JSON value. -/
inductive JsonPrim where
  | jnull
  | jbool (b : Bool)
  | jnum (n : Int)
  | jstr (s : String)
deriving Repr, DecidableEq, Inhabited

/-- A JSON value: a primitive, an array of primitives, or a flat object. -/
inductive JsonV where
  | prim (p : JsonPrim)
  | arr (xs : List JsonPrim)
  | obj (fields : List (String × JsonPrim))
deriving Repr, DecidableEq, Inhabited

/-- JavaScript truthiness of a JSON value (`null`, `false`, `0` and the empty
string are falsy; arrays and objects are always truthy). -/
def JsonV.truthy : JsonV → Bool
  | .prim .jnull => false
  | .prim (.jbool b) => b
  | .prim (.jnum n) => n != 0
  | .prim (.jstr s) => s != ""
  | .arr _ => true
  | .obj _ => true

/-- The JavaScript expression `a || d` for an optional JSON value `a`
(`undefined` is modelled as `none`). -/
def jsOr (a : Option JsonV) (d : JsonV) : JsonV :=
  match a with
  | none => d
  | some v => if v.truthy then v else d

/-! ## Registry and dispatcher (src/core/fastmcp.ts)

The `FastMCP` class holds a `ServerRegistry` of three maps and installs one
request handler per MCP method in `setupHandlers`.  Handlers may perform side
effects; these are modelled by threading an explicit state `σ` through every
handler invocation. -/

/-- A content block of a tool/resource result (`{ type, text }`). -/
structure ContentBlock where
  ctype : String
  text : String
deriving Repr, DecidableEq, Inhabited

/-- A Zod schema, modelled by its `parse` behaviour: either the validated
value or a thrown `ZodError` message. -/
structure ZodSchema where
  parse : JsonV → Except String JsonV

/-- A `ToolSchema` as registered (`{ description?, inputSchema }`). -/
structure ToolSchema where
  description : Option String
  inputSchema : ZodSchema

/-- What a tool handler returns (`{ content, isError? }`). -/
structure ToolOutput where
  content : List ContentBlock
  isError : Option Bool
deriving Repr, DecidableEq

/-- What the CallTool request handler returns (`{ content, isError }`). -/
structure CallToolResult where
  content : List ContentBlock
  isError : Bool
deriving Repr, DecidableEq

/-- A registered tool (`registry.tools` entry: `{ name, handler, schema }`).
The handler receives the validated arguments; the per-call execution context
(random request id, timestamp, abort signal) carries no registry or session
state and is omitted.  A thrown error is an `Except.error`; the state `σ`
records the side effects the handler performed. -/
structure ToolEntry (σ : Type) where
  name : String
  handler : JsonV → σ → Except String ToolOutput × σ
  schema : ToolSchema

/-- What a resource handler returns (`{ contents }`). -/
structure ResourceOutput where
  contents : List ContentBlock
deriving Repr, DecidableEq

/-- What the ReadResource request handler returns. -/
structure ReadResourceResult where
  contents : List ContentBlock
deriving Repr, DecidableEq

/-- A registered resource (`registry.resources` entry). -/
structure ResourceEntry (σ : Type) where
  uri : String
  handler : String → σ → Except String ResourceOutput × σ
  name : Option String
  description : Option String
  mimeType : Option String

/-- What a prompt handler returns (`{ description?, messages }`). -/
structure PromptOutput where
  description : Option String
  messages : List ContentBlock
deriving Repr, DecidableEq

/-- What the GetPrompt request handler returns. -/
structure GetPromptResult where
  description : Option String
  messages : List ContentBlock
deriving Repr, DecidableEq

/-- A registered prompt (`registry.prompts` entry: `{ name, handler,
description, arguments }`).  The `arguments` field stores whatever the
registrant supplied; when it is a schema, it is modelled as a `ZodSchema`. -/
structure PromptEntry (σ : Type) where
  name : String
  handler : Option JsonV → σ → Except String PromptOutput × σ
  description : Option String
  argumentsSchema : Option ZodSchema

/-- The `ServerRegistry`: three independent name-keyed maps. -/
structure ServerRegistry (σ : Type) where
  tools : Table (ToolEntry σ)
  resources : Table (ResourceEntry σ)
  prompts : Table (PromptEntry σ)

/-- How a dispatcher call fails.  `notFound` is the error thrown before the
`try` block; `validation` is a rethrown `ZodError` from `inputSchema.parse`;
`execution` is a rethrown handler error.  The three are distinct JavaScript
error classes, so they are distinct constructors here. -/
inductive DispatchError where
  | notFound (msg : String)
  | validation (msg : String)
  | execution (msg : String)
deriving Repr, DecidableEq

/-- The CallToolRequestSchema handler (fastmcp.ts lines 251-282).  Looks the
tool up (throwing `Tool not found` before the `try` block), validates the raw
arguments with `inputSchema.parse(args || {})`, builds the execution context,
invokes the handler, and wraps the result with `isError` defaulted to
`false`.  The `catch` block logs the error and rethrows it. -/
def callTool {σ : Type} (reg : ServerRegistry σ) (name : String)
    (args : Option JsonV) (s : σ) : Except DispatchError CallToolResult × σ :=
  match reg.tools.lookup name with
  | none => (.error (.notFound ("Tool not found: " ++ name)), s)
  | some tool =>
      match tool.schema.inputSchema.parse (jsOr args (JsonV.obj [])) with
      | .error m => (.error (.validation m), s)
      | .ok validatedArgs =>
          match tool.handler validatedArgs s with
          | (.error m, s₁) => (.error (.execution m), s₁)
          | (.ok result, s₁) =>
              (.ok { content := result.content,
                     isError := result.isError.getD false }, s₁)

/-- The ReadResourceRequestSchema handler (fastmcp.ts lines 297-316).  Looks
the resource up (throwing `Resource not found` before the `try` block) and
invokes the handler with the URI; no input validation is performed.  The
`catch` block logs the error and rethrows it. -/
def readResource {σ : Type} (reg : ServerRegistry σ) (uri : String) (s : σ) :
    Except DispatchError ReadResourceResult × σ :=
  match reg.resources.lookup uri with
  | none => (.error (.notFound ("Resource not found: " ++ uri)), s)
  | some resource =>
      match resource.handler uri s with
      | (.error m, s₁) => (.error (.execution m), s₁)
      | (.ok result, s₁) => (.ok { contents := result.contents }, s₁)

/-- The GetPromptRequestSchema handler (fastmcp.ts lines 330-353).  Looks the
prompt up (throwing `Prompt not found` before the `try` block) and invokes
the handler with the raw arguments: the source sets
`const validatedArgs = args` with the comment that arguments are not parsed.
The `catch` block logs the error and rethrows it. -/
def getPrompt {σ : Type} (reg : ServerRegistry σ) (name : String)
    (args : Option JsonV) (s : σ) : Except DispatchError GetPromptResult × σ :=
  match reg.prompts.lookup name with
  | none => (.error (.notFound ("Prompt not found: " ++ name)), s)
  | some promptMeta =>
      let validatedArgs := args
      match promptMeta.handler validatedArgs s with
      | (.error m, s₁) => (.error (.execution m), s₁)
      | (.ok result, s₁) =>
          (.ok { description := result.description,
                 messages := result.messages }, s₁)

/-! ## Registration (fastmcp.ts lines 144-167)

`registerTool` guards its dynamically-typed JavaScript inputs before touching
the tools map.  A caller may pass a non-function handler or a non-object
schema despite the TypeScript annotations, so those two inputs are modelled
as `Option`s (`none` = not callable / not an object).  The name-validation
contract (`validateName`, a peripheral helper the specification treats as an
external collaborator) is a parameter `vName`; it throws exactly when `vName`
is `false`. -/

def registerTool {σ : Type} (vName : String → Bool) (reg : ServerRegistry σ)
    (name : String) (handler : Option (JsonV → σ → Except String ToolOutput × σ))
    (schema : Option ToolSchema) : Except String (ServerRegistry σ) :=
  if name = "" then
    .error "Tool name must be a non-empty string"
  else if ¬ vName name then
    .error "Name validation failed"
  else
    match handler with
    | none => .error "Tool handler must be a function"
    | some h =>
        match schema with
        | none => .error "Tool schema must be an object"
        | some sch =>
            let entry : ToolEntry σ := { name := name, handler := h, schema := sch }
            .ok { reg with tools := reg.tools.set name entry }

/-! ## Server lifecycle (fastmcp.ts lines 361-442)

`run` selects a transport.  The streamable and stdio branches start/connect a
transport and set `isRunning`; the SSE branch logs deprecation warnings and
throws.  The `catch` block logs, sets `isRunning := false` and rethrows.
External start/connect failures for the stdio and streamable transports are
outside this model (they would also land in the `catch` block); the SSE throw
comes from the source itself and is unconditional. -/

inductive TransportType where
  | stdio
  | sse
  | streamable
deriving Repr, DecidableEq

/-- The lifecycle-relevant fields of a `FastMCP` instance.  The `server`
field of the class is assigned in the constructor and never nulled, so the
`server !== null` conjunct of `isHealthy` is always true and is omitted. -/
structure ServerState where
  isRunning : Bool
  transportConnected : Bool
deriving Repr, DecidableEq

/-- The message thrown by the SSE branch of `run`. -/
def sseDeprecatedMsg : String :=
  "SSE transport is deprecated. MCP officially recommends using streamable transport instead. Please refer to the streamable transport documentation for migration guidance."

/-- `FastMCP.run` (fastmcp.ts lines 361-409). -/
def run (transportType : TransportType) (s : ServerState) :
    Except String Unit × ServerState :=
  if s.isRunning then
    (.error "Server is already running", s)
  else
    match transportType with
    | .streamable =>
        (.ok (), { isRunning := true, transportConnected := true })
    | .sse =>
        (.error sseDeprecatedMsg, { s with isRunning := false })
    | .stdio =>
        (.ok (), { isRunning := true, transportConnected := true })

/-- `FastMCP.isHealthy` (fastmcp.ts lines 440-442). -/
def isHealthy (s : ServerState) : Bool := s.isRunning

/-! ## Streamable HTTP transport (src/transport/streamable.ts)

`startStreamableMcpServer` keeps `activeTransports`, a record mapping a
session id to `{ server, transport, isClosing }`.  The `server` and
`transport` fields are external SDK objects; only the `isClosing` flag
participates in the bookkeeping logic verified here, so an entry is modelled
by that flag.  The `mcp-session-id` header is an `Option String`; JavaScript
treats both a missing header and the empty string as falsy, captured by
`headerSid` returning `""` for a missing header and truthiness being
`sid != ""`. -/

/-- One `activeTransports` entry, reduced to its bookkeeping flag. -/
structure ActiveEntry where
  isClosing : Bool
deriving Repr, DecidableEq, Inhabited

/-- The `activeTransports` record. -/
abbrev SessionTable : Type := Table ActiveEntry

/-- The value of the `mcp-session-id` header as the JavaScript code sees it
(`undefined` behaves like `""` under the truthiness checks used). -/
def headerSid (hdr : Option String) : String := hdr.getD ""

/-- The JSON-RPC error envelope written by the POST 400 branch
(streamable.ts lines 100-114). -/
structure ErrorEnvelope where
  jsonrpc : String
  id : Option JsonV
  code : Int
  message : String
deriving Repr, DecidableEq

/-- The exact envelope of the "no valid session" 400 response. -/
def noValidSessionEnvelope : ErrorEnvelope :=
  { jsonrpc := "2.0", id := none, code := -32000,
    message := "Bad Request: No valid session ID provided" }

/-- Outcome of the POST branch of `handleRequest`. -/
inductive PostResult where
  | forwarded (sid : String)
  | initialized (sid : String)
  | badRequest (status : Nat) (envelope : ErrorEnvelope)
deriving Repr, DecidableEq

/-- The POST branch of `handleRequest` (streamable.ts lines 39-130), on the
non-throwing path.  `isInitReq` is `isInitializeRequest(body)`; `freshSid` is
the session id `randomUUID` generates for a new session, inserted by the
`onsessioninitialized` callback with `isClosing: false`.  Branches, in source
order: a truthy header naming a live entry forwards to it; a falsy header
with an initialize body creates a session; anything else writes the 400
envelope and leaves the table untouched. -/
def handlePost (tbl : SessionTable) (hdr : Option String) (isInitReq : Bool)
    (freshSid : String) : SessionTable × PostResult :=
  let sessionId := headerSid hdr
  if sessionId != "" && (tbl.lookup sessionId).isSome then
    (tbl, .forwarded sessionId)
  else if sessionId == "" && isInitReq then
    (tbl.set freshSid { isClosing := false }, .initialized freshSid)
  else
    (tbl, .badRequest 400 noValidSessionEnvelope)

/-- Outcome of the DELETE branch of `handleRequest`. -/
inductive DeleteResult where
  | handled
  | noResponse
  | badRequest (msg : String)
deriving Repr, DecidableEq

/-- The DELETE branch of `handleRequest` (streamable.ts lines 164-201), run
to completion on the non-throwing path.  The returned `Nat` counts how many
times `server.close()` was invoked.  A falsy header gets a 400; an unknown
session id gets a 400; an entry already marked `isClosing` falls through the
`if` and the function returns without writing any response; otherwise the
flag is set, the transport answers the DELETE, the server is closed (errors
swallowed) and the entry is removed in the `finally`. -/
def handleDelete (tbl : SessionTable) (hdr : Option String) :
    SessionTable × DeleteResult × Nat :=
  let sessionId := headerSid hdr
  if sessionId == "" then
    (tbl, .badRequest "Invalid or missing sessionId", 0)
  else
    match tbl.lookup sessionId with
    | none => (tbl, .badRequest "No active transport", 0)
    | some entry =>
        if entry.isClosing then
          (tbl, .noResponse, 0)
        else
          (tbl.erase sessionId, .handled, 1)

/-! ## Teardown interleaving (streamable.ts lines 74-93 and 164-201)

Two triggers can tear a session down: the `transport.onclose` callback and
the DELETE branch.  Both run on the single event-loop thread but contain
`await` points, so their steps can interleave.  Crucially, in both triggers
there is no `await` between reading `isClosing` and setting it, so the
guard-and-acquire is one atomic step; the subsequent `server.close()` and the
`delete activeTransports[sid]` in the `finally` sit after `await` boundaries
and are modelled as separate atomic steps.

A trigger is a small program over program counters:
`0` = before the guard, `1` = guard acquired (flag set, about to close),
`2` = server closed (about to delete the entry), `3` = done.
The two trigger kinds differ only in the HTTP responses they write
(`onclose` writes none; DELETE answers via the transport or a 400); their
table/flag/close bookkeeping — all that the teardown invariant is about —
is identical, so the step function is shared. -/

/-- Which teardown trigger a program is (affects only responses, which the
teardown invariant does not mention). -/
inductive TriggerKind where
  | onclose
  | del
deriving Repr, DecidableEq

/-- One in-flight teardown trigger. -/
structure Trigger where
  kind : TriggerKind
  pc : Nat
deriving Repr, DecidableEq

/-- A session table together with two racing teardown triggers for the same
session id and a count of `server.close()` invocations for that session. -/
structure TeardownSys where
  table : SessionTable
  closes : Nat
  t1 : Trigger
  t2 : Trigger
deriving Repr, DecidableEq

/-- One atomic step of a teardown trigger aimed at session `sid`.
pc 0: the guard — `onclose` checks `sid && activeTransports[sid] &&
!activeTransports[sid].isClosing`; DELETE checks the entry exists and is not
closing (an absent entry means a 400, a closing entry means returning with
no response; both leave the state alone and finish).  On success the flag is
set in the same step (no `await` separates the read from the write).
pc 1: `await server.close()` (errors swallowed) — counted.
pc 2: `delete activeTransports[sid]` in the `finally`. -/
def stepTrigger (sid : String) (tbl : SessionTable) (closes : Nat)
    (t : Trigger) : SessionTable × Nat × Trigger :=
  match t.pc with
  | 0 =>
      match tbl.lookup sid with
      | some entry =>
          if entry.isClosing then (tbl, closes, { t with pc := 3 })
          else (tbl.set sid { isClosing := true }, closes, { t with pc := 1 })
      | none => (tbl, closes, { t with pc := 3 })
  | 1 => (tbl, closes + 1, { t with pc := 2 })
  | 2 => (tbl.erase sid, closes, { t with pc := 3 })
  | _ => (tbl, closes, t)

/-- Step trigger 1 (when `first` is true) or trigger 2 of the system. -/
def sysStep (sid : String) (s : TeardownSys) (first : Bool) : TeardownSys :=
  if first then
    let (tbl, closes, t) := stepTrigger sid s.table s.closes s.t1
    { s with table := tbl, closes := closes, t1 := t }
  else
    let (tbl, closes, t) := stepTrigger sid s.table s.closes s.t2
    { s with table := tbl, closes := closes, t2 := t }

/-- Run an arbitrary interleaving schedule. -/
def runSched (sid : String) (s : TeardownSys) (sched : List Bool) : TeardownSys :=
  sched.foldl (sysStep sid) s

/-- Drive both triggers to completion (three steps suffice for each from any
program counter). -/
def runToCompletion (sid : String) (s : TeardownSys) : TeardownSys :=
  runSched sid s [true, true, true, false, false, false]

/-! ## Event store (resumability)

Modelled from the spec: `src/transport/InMemoryEventStore.ts` is imported by
streamable.ts (line 10) and passed to the SDK transport as its `eventStore`
(lines 17 and 61), but the file itself is not under src/.  Following spec
section 4.2: `append(streamId, message)` assigns the next sequence number for
the stream and stores the pair; `replayAfter(streamId, lastEventId)`
produces, in order, every stored message with `eventId > lastEventId`;
entries are append-only and ordered by `eventId` within a `streamId`. -/

/-- Modelled from the spec: the in-memory event store, a per-stream
append-only log of `(eventId, payload)` pairs in append order. -/
structure EventStore where
  streams : Table (List (Nat × String))
deriving Repr, DecidableEq

namespace EventStore

/-- The entries currently stored for a stream, in append order. -/
def entriesOf (es : EventStore) (streamId : String) : List (Nat × String) :=
  (es.streams.lookup streamId).getD []

/-- Modelled from the spec: `append` assigns the next sequence number for
`streamId` and stores `(eventId, message)`; returns the fresh event id. -/
def append (es : EventStore) (streamId : String) (msg : String) :
    EventStore × Nat :=
  let entries := es.entriesOf streamId
  let nextId := entries.length + 1
  ({ streams := es.streams.set streamId (entries ++ [(nextId, msg)]) }, nextId)

/-- Append a whole list of live messages in arrival order. -/
def appendAll (es : EventStore) (streamId : String) (msgs : List String) :
    EventStore :=
  msgs.foldl (fun acc m => (acc.append streamId m).1) es

/-- Modelled from the spec: `replayAfter` produces, in order, every stored
message with `eventId` strictly greater than the client-supplied
last-event-id. -/
def replayAfter (es : EventStore) (streamId : String) (lastEventId : Nat) :
    List (Nat × String) :=
  (es.entriesOf streamId).filter (fun p => lastEventId < p.1)

end EventStore

/-- The list `msgs` numbered with consecutive event ids starting at `n`. -/
def numberFrom (n : Nat) : List String → List (Nat × String)
  | [] => []
  | m :: ms => (n, m) :: numberFrom (n + 1) ms

/-! ## Example fixtures

Concrete registries used as witness inputs, following the example scenarios
of the specification (an `add` tool with a two-number schema, a failing
tool, a resource, a prompt with a declared arguments schema). -/

/-- Schema accepting exactly an object of numeric fields `a` and `b`. -/
def addInputSchema : ZodSchema :=
  { parse := fun v =>
      match v with
      | .obj [("a", .jnum a), ("b", .jnum b)] =>
          .ok (.obj [("a", .jnum a), ("b", .jnum b)])
      | _ => .error "Expected number arguments a and b" }

/-- Schema accepting any value unchanged. -/
def anySchema : ZodSchema := { parse := fun v => .ok v }

/-- Schema rejecting every value. -/
def rejectAllSchema : ZodSchema := { parse := fun _ => .error "invalid args" }

/-- The `add` tool handler: increments the effect counter and renders the
sum, as in specification example scenario 1. -/
def addHandler : JsonV → Nat → Except String ToolOutput × Nat :=
  fun v s =>
    match v with
    | .obj [("a", .jnum a), ("b", .jnum b)] =>
        (.ok { content := [{ ctype := "text",
                             text := toString a ++ " + " ++ toString b ++ " = "
                                       ++ toString (a + b) }],
               isError := none }, s + 1)
    | _ => (.error "unexpected argument shape", s + 1)

/-- A handler that always throws (after performing its side effect). -/
def boomHandler : JsonV → Nat → Except String ToolOutput × Nat :=
  fun _ s => (.error "boom", s + 1)

/-- The registered `add` tool entry. -/
def exAddTool : ToolEntry Nat :=
  { name := "add", handler := addHandler,
    schema := { description := some "Add two numbers",
                inputSchema := addInputSchema } }

/-- The registered always-throwing tool entry. -/
def exBoomTool : ToolEntry Nat :=
  { name := "boom", handler := boomHandler,
    schema := { description := none, inputSchema := anySchema } }

/-- A resource handler echoing the URI, with a side effect. -/
def exResourceEntry : ResourceEntry Nat :=
  { uri := "file://readme", name := some "Readme",
    description := none, mimeType := some "text/plain",
    handler := fun uri s =>
      (.ok { contents := [{ ctype := "text", text := uri }] }, s + 1) }

/-- A prompt entry that declares an arguments schema rejecting everything;
its handler performs a side effect and succeeds on any raw arguments. -/
def exGreetPrompt : PromptEntry Nat :=
  { name := "greet", description := some "Greets",
    argumentsSchema := some rejectAllSchema,
    handler := fun _ s =>
      (.ok { description := some "Greets",
             messages := [{ ctype := "text", text := "hi" }] }, s + 1) }

/-- The example registry. -/
def exRegistry : ServerRegistry Nat :=
  { tools := [("add", exAddTool), ("boom", exBoomTool)],
    resources := [("file://readme", exResourceEntry)],
    prompts := [("greet", exGreetPrompt)] }

/-- Arguments `{a: 5, b: 3}` of specification example scenario 1. -/
def goodArgs : JsonV := .obj [("a", .jnum 5), ("b", .jnum 3)]

/-- Arguments `{a: "x", b: 3}` of specification example scenario 2. -/
def badArgs : JsonV := .obj [("a", .jstr "x"), ("b", .jnum 3)]

/-! ## Dispatcher theorems -/

/-- C4: for every registered tool and raw arguments that fail the registered
input schema, `callTool` never invokes the handler: `inputSchema.parse` runs
first, its failure is returned at once, and the handler state is untouched,
so none of the handler side effects occur. -/
theorem C4_validation_precedes_execution {σ : Type} (reg : ServerRegistry σ)
    (name : String) (args : Option JsonV) (s : σ) (tool : ToolEntry σ)
    (m : String) (hlook : reg.tools.lookup name = some tool)
    (hparse : tool.schema.inputSchema.parse (jsOr args (JsonV.obj []))
      = .error m) :
    callTool reg name args s = (.error (.validation m), s) := by
  simp [callTool, hlook, hparse]

/-- Witness for C4 at specification example scenario 2: the `add` tool with
arguments `{a: "x", b: 3}`; the effect counter stays at 0, so the handler
never ran. -/
theorem C4_witness :
    exRegistry.tools.lookup "add" = some exAddTool ∧
    exAddTool.schema.inputSchema.parse (jsOr (some badArgs) (JsonV.obj []))
      = .error "Expected number arguments a and b" ∧
    callTool exRegistry "add" (some badArgs) 0
      = (.error (.validation "Expected number arguments a and b"), 0) :=
  ⟨rfl, rfl,
    C4_validation_precedes_execution exRegistry "add" (some badArgs) 0
      exAddTool "Expected number arguments a and b" rfl rfl⟩

/-- C6: a tool, resource, or prompt name/URI that was never registered makes
`callTool`, `readResource`, `getPrompt` fail with the NotFound-class error
thrown before the `try` block; the error is a distinct constructor from
validation and execution errors, hence distinguishable from both. -/
theorem C6_unknown_capability {σ : Type} (reg : ServerRegistry σ)
    (name uri pname : String) (args pargs : Option JsonV) (s : σ)
    (ht : reg.tools.lookup name = none)
    (hr : reg.resources.lookup uri = none)
    (hp : reg.prompts.lookup pname = none) :
    callTool reg name args s
      = (.error (.notFound ("Tool not found: " ++ name)), s) ∧
    readResource reg uri s
      = (.error (.notFound ("Resource not found: " ++ uri)), s) ∧
    getPrompt reg pname pargs s
      = (.error (.notFound ("Prompt not found: " ++ pname)), s) ∧
    (∀ m : String,
      DispatchError.notFound ("Tool not found: " ++ name) ≠ .validation m ∧
      DispatchError.notFound ("Tool not found: " ++ name) ≠ .execution m) := by
  refine ⟨?_, ?_, ?_, ?_⟩
  · simp [callTool, ht]
  · simp [readResource, hr]
  · simp [getPrompt, hp]
  · intro m
    exact ⟨by simp, by simp⟩

/-- Witness for C6: the names `missing`, `file://missing`, `missing` are not
in the example registry, and all three dispatch operations report NotFound. -/
theorem C6_witness :
    exRegistry.tools.lookup "missing" = none ∧
    callTool exRegistry "missing" none 0
      = (.error (.notFound "Tool not found: missing"), 0) ∧
    readResource exRegistry "file://missing" 0
      = (.error (.notFound "Resource not found: file://missing"), 0) ∧
    getPrompt exRegistry "missing" none 0
      = (.error (.notFound "Prompt not found: missing"), 0) :=
  ⟨rfl,
    (C6_unknown_capability exRegistry "missing" "file://missing" "missing"
      none none 0 rfl rfl rfl).1,
    (C6_unknown_capability exRegistry "missing" "file://missing" "missing"
      none none 0 rfl rfl rfl).2.1,
    (C6_unknown_capability exRegistry "missing" "file://missing" "missing"
      none none 0 rfl rfl rfl).2.2.1⟩

/-- C1 counterexample: the claim says a throwing handler is caught and turned
into a successful result with `isError: true`.  On the code, the `catch`
block of the CallTool handler logs and rethrows: calling the always-throwing
`boom` tool yields a propagated `Except.error`, not an `Except.ok` result
with `isError := true`. -/
theorem C1_counterexample :
    callTool exRegistry "boom" (some goodArgs) 0
      = (.error (.execution "boom"), 1) := rfl

/-- C1 amended: when input validation fails, the ZodError is rethrown as a
protocol-level failure with no handler side effect; when the handler throws,
the error is rethrown as a protocol-level failure (not converted into an
`isError: true` result).  The dispatcher holds no session state, so a
subsequent call on the same session with a well-behaved tool succeeds
normally from the state the failed call left. -/
theorem C1_amended {σ : Type} (reg : ServerRegistry σ)
    (name₁ name₂ name₃ : String) (args₁ args₂ args₃ : Option JsonV)
    (s s₁ s₂ : σ) (tool₁ tool₂ tool₃ : ToolEntry σ) (v₁ v₂ : JsonV)
    (m mv : String) (r : ToolOutput)
    (hlook₁ : reg.tools.lookup name₁ = some tool₁)
    (hparse₁ : tool₁.schema.inputSchema.parse (jsOr args₁ (JsonV.obj []))
      = .ok v₁)
    (hhandler₁ : tool₁.handler v₁ s = (.error m, s₁))
    (hlook₃ : reg.tools.lookup name₃ = some tool₃)
    (hparse₃ : tool₃.schema.inputSchema.parse (jsOr args₃ (JsonV.obj []))
      = .error mv)
    (hlook₂ : reg.tools.lookup name₂ = some tool₂)
    (hparse₂ : tool₂.schema.inputSchema.parse (jsOr args₂ (JsonV.obj []))
      = .ok v₂)
    (hhandler₂ : tool₂.handler v₂ s₁ = (.ok r, s₂)) :
    callTool reg name₁ args₁ s = (.error (.execution m), s₁) ∧
    callTool reg name₃ args₃ s = (.error (.validation mv), s) ∧
    callTool reg name₂ args₂ s₁
      = (.ok { content := r.content, isError := r.isError.getD false }, s₂) := by
  refine ⟨?_, ?_, ?_⟩
  · simp [callTool, hlook₁, hparse₁, hhandler₁]
  · simp [callTool, hlook₃, hparse₃]
  · simp [callTool, hlook₂, hparse₂, hhandler₂]

/-- Witness for C1 amended: the `boom` tool throws (propagated execution
error, effect counter 1), the `add` tool rejects `{a: "x", b: 3}`
(propagated validation error, no effect), and the subsequent `add` call with
`{a: 5, b: 3}` on the same session succeeds from the state the failure
left. -/
theorem C1_witness :
    callTool exRegistry "boom" (some goodArgs) 0
      = (.error (.execution "boom"), 1) ∧
    callTool exRegistry "add" (some badArgs) 0
      = (.error (.validation "Expected number arguments a and b"), 0) ∧
    callTool exRegistry "add" (some goodArgs) 1
      = (.ok { content := [{ ctype := "text", text := "5 + 3 = 8" }],
               isError := false }, 2) := by
  have h := C1_amended exRegistry "boom" "add" "add" (some goodArgs)
    (some goodArgs) (some badArgs) 0 1 2 exBoomTool exAddTool exAddTool
    goodArgs (.obj [("a", .jnum 5), ("b", .jnum 3)]) "boom"
    "Expected number arguments a and b"
    { content := [{ ctype := "text", text := "5 + 3 = 8" }], isError := none }
    rfl rfl rfl rfl rfl rfl rfl rfl
  exact ⟨h.1, h.2.1, h.2.2⟩

/-- C7 counterexample: the claim says `getPrompt` validates the supplied args
against the declared arguments schema before invoking the handler.  On the
code, no validation happens: the `greet` prompt declares a schema that
rejects every value, yet `getPrompt` with those very args invokes the
handler (the effect counter moves from 0 to 1) and returns its output. -/
theorem C7_counterexample :
    exGreetPrompt.argumentsSchema = some rejectAllSchema ∧
    rejectAllSchema.parse goodArgs = .error "invalid args" ∧
    getPrompt exRegistry "greet" (some goodArgs) 0
      = (.ok { description := some "Greets",
               messages := [{ ctype := "text", text := "hi" }] }, 1) :=
  ⟨rfl, rfl, rfl⟩

/-- C7 amended: `getPrompt` performs no validation of the supplied args: they
are passed unchanged to the prompt handler regardless of any declared
arguments schema (the registered schema is arbitrary in this statement and
does not appear in the conclusion).  `readResource` likewise performs no
input validation beyond the URI lookup: the handler is invoked directly on
the URI. -/
theorem C7_amended {σ : Type} (reg : ServerRegistry σ)
    (pname uri : String) (args : Option JsonV) (s s₁ s₂ : σ)
    (p : PromptEntry σ) (rsc : ResourceEntry σ)
    (r : PromptOutput) (out : ResourceOutput)
    (hp : reg.prompts.lookup pname = some p)
    (hph : p.handler args s = (.ok r, s₁))
    (hr : reg.resources.lookup uri = some rsc)
    (hrh : rsc.handler uri s = (.ok out, s₂)) :
    getPrompt reg pname args s
      = (.ok { description := r.description, messages := r.messages }, s₁) ∧
    readResource reg uri s = (.ok { contents := out.contents }, s₂) := by
  constructor
  · simp [getPrompt, hp, hph]
  · simp [readResource, hr, hrh]

/-- Witness for C7 amended: the `greet` prompt handler runs on raw args that
its declared schema would reject, and the example resource serves its URI
without any validation step. -/
theorem C7_witness :
    getPrompt exRegistry "greet" (some goodArgs) 0
      = (.ok { description := some "Greets",
               messages := [{ ctype := "text", text := "hi" }] }, 1) ∧
    readResource exRegistry "file://readme" 0
      = (.ok { contents := [{ ctype := "text", text := "file://readme" }] },
         1) :=
  C7_amended exRegistry "greet" "file://readme" (some goodArgs) 0 1 1
    exGreetPrompt exResourceEntry
    { description := some "Greets",
      messages := [{ ctype := "text", text := "hi" }] }
    { contents := [{ ctype := "text", text := "file://readme" }] }
    rfl rfl rfl rfl

/-! ## Registration and lifecycle theorems -/

/-- C8: `registerTool` fails with an InvalidArgument-class error when the
name is empty or fails the name-validation contract, the handler is not
callable, or the schema is not an object; no new registry is produced in
that case (the function is pure, so the caller keeps the old tools map
untouched).  Otherwise it inserts-or-overwrites the entry keyed by the name
and returns no other value. -/
theorem C8_registerTool_contract {σ : Type} (vName : String → Bool)
    (reg : ServerRegistry σ) (name : String)
    (handler : Option (JsonV → σ → Except String ToolOutput × σ))
    (schema : Option ToolSchema) :
    ((name = "" ∨ vName name = false ∨ handler = none ∨ schema = none) →
      ∃ msg, registerTool vName reg name handler schema = .error msg) ∧
    (∀ h sch, name ≠ "" → vName name = true → handler = some h →
      schema = some sch →
      registerTool vName reg name handler schema =
        .ok { reg with
              tools := reg.tools.set name
                { name := name, handler := h, schema := sch } }) := by
  constructor
  · intro hfail
    rcases hfail with h | h | h | h
    · exact ⟨"Tool name must be a non-empty string", by simp [registerTool, h]⟩
    · by_cases hname : name = ""
      · exact ⟨"Tool name must be a non-empty string",
          by simp [registerTool, hname]⟩
      · exact ⟨"Name validation failed", by simp [registerTool, hname, h]⟩
    · by_cases hname : name = ""
      · exact ⟨"Tool name must be a non-empty string",
          by simp [registerTool, hname]⟩
      · by_cases hv : vName name
        · exact ⟨"Tool handler must be a function",
            by simp [registerTool, hname, hv, h]⟩
        · exact ⟨"Name validation failed", by simp [registerTool, hname, hv]⟩
    · by_cases hname : name = ""
      · exact ⟨"Tool name must be a non-empty string",
          by simp [registerTool, hname]⟩
      · by_cases hv : vName name
        · cases handler with
          | none => exact ⟨"Tool handler must be a function",
              by simp [registerTool, hname, hv]⟩
          | some f => exact ⟨"Tool schema must be an object",
              by simp [registerTool, hname, hv, h]⟩
        · exact ⟨"Name validation failed", by simp [registerTool, hname, hv]⟩
  · intro h sch hname hv hh hsch
    subst hh
    subst hsch
    simp [registerTool, hname, hv]

/-- A name validator accepting exactly the nonempty names, standing in for
the external `validateName` contract in the C8 witness. -/
def exValidator : String → Bool := fun n => n != ""

/-- The empty registry over the effect-counter state. -/
def emptyRegistry : ServerRegistry Nat :=
  { tools := Table.empty, resources := Table.empty, prompts := Table.empty }

/-- Witness for C8: registering with an empty name fails; registering `add`
with a callable handler and an object schema succeeds and stores the entry
under the key `add`. -/
theorem C8_witness :
    (∃ msg, registerTool exValidator emptyRegistry "" (some addHandler)
      (some { description := none, inputSchema := addInputSchema })
        = .error msg) ∧
    registerTool exValidator emptyRegistry "add" (some addHandler)
      (some { description := none, inputSchema := addInputSchema })
      = .ok { emptyRegistry with
              tools := Table.empty.set "add"
                { name := "add", handler := addHandler,
                  schema := { description := none,
                              inputSchema := addInputSchema } } } :=
  ⟨(C8_registerTool_contract exValidator emptyRegistry "" (some addHandler)
      (some { description := none, inputSchema := addInputSchema })).1
      (Or.inl rfl),
   (C8_registerTool_contract exValidator emptyRegistry "add"
      (some addHandler)
      (some { description := none, inputSchema := addInputSchema })).2
      addHandler { description := none, inputSchema := addInputSchema }
      (by decide) rfl rfl rfl⟩

/-- C9: a FastMCP instance configured with the SSE transport never starts:
`run` throws the deprecation error from inside the `try`, the `catch` sets
`isRunning` to false and rethrows, no transport is connected, and
`isHealthy` stays false. -/
theorem C9_sse_run_always_throws (s : ServerState)
    (h1 : s.isRunning = false) (h2 : s.transportConnected = false) :
    run .sse s
      = (.error sseDeprecatedMsg,
         { isRunning := false, transportConnected := false }) ∧
    isHealthy (run .sse s).2 = false := by
  obtain ⟨r, c⟩ := s
  subst h1
  subst h2
  exact ⟨rfl, rfl⟩

/-- Witness for C9 at the freshly constructed server state. -/
theorem C9_witness :
    run .sse { isRunning := false, transportConnected := false }
      = (.error sseDeprecatedMsg,
         { isRunning := false, transportConnected := false }) ∧
    isHealthy (run .sse { isRunning := false,
                          transportConnected := false }).2 = false :=
  C9_sse_run_always_throws
    { isRunning := false, transportConnected := false } rfl rfl

/-! ## Transport theorems -/

/-- C3: a POST whose `mcp-session-id` header is absent (or empty, which
JavaScript treats identically) or does not name a live session, and whose
body is not an initialize request, creates no session — the table is
returned unchanged — and is answered with HTTP 400 carrying exactly the
JSON-RPC envelope with `jsonrpc: "2.0"`, `id: null`, code `-32000` and the
message `Bad Request: No valid session ID provided`. -/
theorem C3_post_without_session_rejected (tbl : SessionTable)
    (hdr : Option String) (freshSid : String)
    (h : headerSid hdr = "" ∨ tbl.lookup (headerSid hdr) = none) :
    handlePost tbl hdr false freshSid
      = (tbl, .badRequest 400 noValidSessionEnvelope) ∧
    noValidSessionEnvelope
      = { jsonrpc := "2.0", id := none, code := -32000,
          message := "Bad Request: No valid session ID provided" } := by
  refine ⟨?_, rfl⟩
  rcases h with h | h
  · simp [handlePost, h]
  · by_cases he : headerSid hdr = "" <;> simp [handlePost, he, h]

/-- Witness for C3 at specification example scenario 4: a POST with the
unknown session id `unknown-123` and a non-initialize body against a table
holding one live session. -/
theorem C3_witness :
    handlePost [("live", { isClosing := false })] (some "unknown-123") false
        "fresh"
      = ([("live", { isClosing := false })],
         .badRequest 400 noValidSessionEnvelope) :=
  (C3_post_without_session_rejected [("live", { isClosing := false })]
    (some "unknown-123") "fresh" (Or.inr rfl)).1

/-- C10: a DELETE for a session whose table entry is still present but whose
`isClosing` flag is already set falls through the guard: the handler returns
without writing any HTTP response, without closing the server, and with the
table entry unmodified. -/
theorem C10_delete_on_closing_session (tbl : SessionTable) (sid : String)
    (hne : sid ≠ "") (h : tbl.lookup sid = some { isClosing := true }) :
    handleDelete tbl (some sid) = (tbl, .noResponse, 0) := by
  simp [handleDelete, headerSid, hne, h]

/-- Witness for C10: a one-session table whose entry is mid-teardown. -/
theorem C10_witness :
    handleDelete [("sess", { isClosing := true })] (some "sess")
      = ([("sess", { isClosing := true })], .noResponse, 0) :=
  C10_delete_on_closing_session [("sess", { isClosing := true })] "sess"
    (by decide) rfl

/-- Invariant of two racing teardown triggers for session `sid`: either
nobody acquired the guard yet (entry present, flag clear, no close), or
exactly one trigger holds the guard (flag set, that trigger between acquire
and removal, `server.close()` counted at most once), or the winner finished
(entry gone, one close); in every shape the loser sits before its guard or
is already done. -/
def TeardownInv (sid : String) (s : TeardownSys) : Prop :=
  (s.table.lookup sid = some { isClosing := false } ∧
    s.t1.pc = 0 ∧ s.t2.pc = 0 ∧ s.closes = 0) ∨
  (s.table.lookup sid = some { isClosing := true } ∧
    s.t1.pc = 1 ∧ (s.t2.pc = 0 ∨ s.t2.pc = 3) ∧ s.closes = 0) ∨
  (s.table.lookup sid = some { isClosing := true } ∧
    s.t2.pc = 1 ∧ (s.t1.pc = 0 ∨ s.t1.pc = 3) ∧ s.closes = 0) ∨
  (s.table.lookup sid = some { isClosing := true } ∧
    s.t1.pc = 2 ∧ (s.t2.pc = 0 ∨ s.t2.pc = 3) ∧ s.closes = 1) ∨
  (s.table.lookup sid = some { isClosing := true } ∧
    s.t2.pc = 2 ∧ (s.t1.pc = 0 ∨ s.t1.pc = 3) ∧ s.closes = 1) ∨
  (s.table.lookup sid = none ∧
    s.t1.pc = 3 ∧ (s.t2.pc = 0 ∨ s.t2.pc = 3) ∧ s.closes = 1) ∨
  (s.table.lookup sid = none ∧
    s.t2.pc = 3 ∧ (s.t1.pc = 0 ∨ s.t1.pc = 3) ∧ s.closes = 1)

/-- Every atomic step of either trigger preserves the teardown invariant. -/
theorem teardownInv_step (sid : String) (s : TeardownSys) (b : Bool)
    (h : TeardownInv sid s) : TeardownInv sid (sysStep sid s b) := by
  obtain ⟨tbl, closes, ⟨k1, p1⟩, ⟨k2, p2⟩⟩ := s
  rcases h with ⟨hl, h1, h2, hc⟩ | ⟨hl, h1, h2, hc⟩ | ⟨hl, h1, h2, hc⟩ |
    ⟨hl, h1, h2, hc⟩ | ⟨hl, h1, h2, hc⟩ | ⟨hl, h1, h2, hc⟩ | ⟨hl, h1, h2, hc⟩ <;>
    simp only at h1 h2 hc <;>
    first
      | (subst h1; subst h2; subst hc;
         cases b <;> simp [TeardownInv, sysStep, stepTrigger, hl])
      | (subst h1; subst hc; rcases h2 with h2 | h2 <;> subst h2 <;>
         cases b <;> simp [TeardownInv, sysStep, stepTrigger, hl])

/-- The teardown invariant is preserved by any interleaving schedule. -/
theorem teardownInv_runSched (sid : String) (s : TeardownSys)
    (sched : List Bool) (h : TeardownInv sid s) :
    TeardownInv sid (runSched sid s sched) := by
  induction sched generalizing s with
  | nil => simpa [runSched] using h
  | cons b rest ih =>
      simpa [runSched, List.foldl] using
        ih (sysStep sid s b) (teardownInv_step sid s b h)

/-- From any invariant state, driving both triggers to completion yields
exactly one `server.close()` and an absent table entry. -/
theorem teardown_completes (sid : String) (s : TeardownSys)
    (h : TeardownInv sid s) :
    (runToCompletion sid s).closes = 1 ∧
    (runToCompletion sid s).table.lookup sid = none := by
  obtain ⟨tbl, closes, ⟨k1, p1⟩, ⟨k2, p2⟩⟩ := s
  rcases h with ⟨hl, h1, h2, hc⟩ | ⟨hl, h1, h2, hc⟩ | ⟨hl, h1, h2, hc⟩ |
    ⟨hl, h1, h2, hc⟩ | ⟨hl, h1, h2, hc⟩ | ⟨hl, h1, h2, hc⟩ | ⟨hl, h1, h2, hc⟩ <;>
    simp only at h1 h2 hc <;>
    first
      | (subst h1; subst h2; subst hc;
         simp [runToCompletion, runSched, sysStep, stepTrigger, hl])
      | (subst h1; subst hc; rcases h2 with h2 | h2 <;> subst h2 <;>
         simp [runToCompletion, runSched, sysStep, stepTrigger, hl])

/-- C2: for a session present in the table with its `isClosing` flag clear,
any interleaving of the two teardown triggers (an explicit DELETE and the
transport onclose callback, in either combination) closes the protocol
endpoint exactly once and removes the table entry; whichever trigger
observes the flag set or the entry absent performs no additional close or
removal, as witnessed by the total close count staying at one across every
schedule. -/
theorem C2_teardown_exactly_once (tbl : SessionTable) (sid : String)
    (k1 k2 : TriggerKind) (sched : List Bool)
    (h : tbl.lookup sid = some { isClosing := false }) :
    (runToCompletion sid
      (runSched sid
        { table := tbl, closes := 0,
          t1 := { kind := k1, pc := 0 },
          t2 := { kind := k2, pc := 0 } } sched)).closes = 1 ∧
    (runToCompletion sid
      (runSched sid
        { table := tbl, closes := 0,
          t1 := { kind := k1, pc := 0 },
          t2 := { kind := k2, pc := 0 } } sched)).table.lookup sid
      = none :=
  teardown_completes sid _
    (teardownInv_runSched sid _ sched (Or.inl ⟨h, rfl, rfl, rfl⟩))

/-- Witness for C2: a one-session table, a DELETE racing the onclose
callback under an interleaving that alternates the two triggers. -/
theorem C2_witness :
    (runToCompletion "sess"
      (runSched "sess"
        { table := [("sess", { isClosing := false })], closes := 0,
          t1 := { kind := .del, pc := 0 },
          t2 := { kind := .onclose, pc := 0 } }
        [false, true, false, true])).closes = 1 ∧
    (runToCompletion "sess"
      (runSched "sess"
        { table := [("sess", { isClosing := false })], closes := 0,
          t1 := { kind := .del, pc := 0 },
          t2 := { kind := .onclose, pc := 0 } }
        [false, true, false, true])).table.lookup "sess" = none :=
  C2_teardown_exactly_once [("sess", { isClosing := false })] "sess"
    .del .onclose [false, true, false, true] rfl

/-! ## Event store theorems -/

@[simp] theorem numberFrom_length (n : Nat) (msgs : List String) :
    (numberFrom n msgs).length = msgs.length := by
  induction msgs generalizing n with
  | nil => simp [numberFrom]
  | cons m ms ih => simp [numberFrom, ih]

/-- Appending messages extends the stream entries with consecutively
numbered pairs starting right after the existing entries. -/
theorem appendAll_entriesOf (es : EventStore) (sid : String)
    (msgs : List String) :
    (es.appendAll sid msgs).entriesOf sid
      = es.entriesOf sid
          ++ numberFrom ((es.entriesOf sid).length + 1) msgs := by
  induction msgs generalizing es with
  | nil => simp [EventStore.appendAll, numberFrom]
  | cons m ms ih =>
      have hes : ((es.append sid m).1).entriesOf sid
          = es.entriesOf sid ++ [((es.entriesOf sid).length + 1, m)] := by
        simp [EventStore.append, EventStore.entriesOf]
      have hstep : es.appendAll sid (m :: ms)
          = ((es.append sid m).1).appendAll sid ms := by
        simp [EventStore.appendAll, List.foldl]
      rw [hstep, ih, hes]
      simp [numberFrom, List.append_assoc, Nat.add_assoc]

/-- Filtering consecutively numbered entries by `k <` keeps exactly the
suffix whose ids exceed `k`. -/
theorem filter_numberFrom (k n : Nat) (msgs : List String) :
    (numberFrom n msgs).filter (fun p => k < p.1)
      = if k < n then numberFrom n msgs
        else numberFrom (k + 1) (msgs.drop (k + 1 - n)) := by
  induction msgs generalizing n with
  | nil => simp [numberFrom]
  | cons m ms ih =>
      by_cases h : k < n
      · have h₂ : k < n + 1 := Nat.lt_succ_of_lt h
        simp [numberFrom, List.filter, h, ih, h₂]
      · have hn : n ≤ k := Nat.le_of_not_lt h
        by_cases h₂ : k < n + 1
        · have hk : k = n := Nat.le_antisymm (Nat.lt_succ_iff.mp h₂) hn
          subst hk
          simp [numberFrom, List.filter, ih, Nat.lt_irrefl]
        · have hdrop : k + 1 - n = (k + 1 - (n + 1)) + 1 := by omega
          simp [numberFrom, List.filter, h, ih, h₂, hdrop,
            Nat.lt_irrefl, List.drop]

/-- Every id in a numbered suffix is at least its starting number. -/
theorem le_fst_of_mem_numberFrom (n : Nat) (msgs : List String)
    (x : Nat × String) (hx : x ∈ numberFrom n msgs) : n ≤ x.1 := by
  induction msgs generalizing n with
  | nil => simp [numberFrom] at hx
  | cons m ms ih =>
      simp only [numberFrom, List.mem_cons] at hx
      rcases hx with hx | hx
      · subst hx
        exact Nat.le_refl n
      · exact Nat.le_of_succ_le (ih (n + 1) hx)

/-- Consecutively numbered entries are in strictly ascending id order. -/
theorem pairwise_numberFrom (n : Nat) (msgs : List String) :
    (numberFrom n msgs).Pairwise (fun a b => a.1 < b.1) := by
  induction msgs generalizing n with
  | nil => simp [numberFrom]
  | cons m ms ih =>
      refine List.Pairwise.cons ?_ (ih (n + 1))
      intro b hb
      exact Nat.lt_of_lt_of_le (Nat.lt_succ_self n)
        (le_fst_of_mem_numberFrom (n + 1) ms b hb)

/-- The ids of a numbered suffix are the consecutive range. -/
theorem map_fst_numberFrom (n : Nat) (msgs : List String) :
    (numberFrom n msgs).map Prod.fst = List.range' n msgs.length := by
  induction msgs generalizing n with
  | nil => simp [numberFrom]
  | cons m ms ih => simp [numberFrom, List.range'_succ, ih]

/-- C5: a stream that received events numbered 1..N replays, for any cursor
0 ≤ k ≤ N, exactly the stored events k+1..N — the dropped messages paired
with ids k+1, k+2, ..., whose id list is the range k+1..N, in strictly
ascending order — and a subsequent live event is appended with id N+1 and
delivered after the replayed ones, preserving order. -/
theorem C5_replay_after_reconnect (es : EventStore) (sid : String)
    (msgs : List String) (k : Nat) (liveMsg : String)
    (hfresh : es.entriesOf sid = []) (hk : k ≤ msgs.length) :
    (es.appendAll sid msgs).replayAfter sid k
      = numberFrom (k + 1) (msgs.drop k) ∧
    ((es.appendAll sid msgs).replayAfter sid k).map Prod.fst
      = List.range' (k + 1) (msgs.length - k) ∧
    ((es.appendAll sid msgs).replayAfter sid k).Pairwise
      (fun a b => a.1 < b.1) ∧
    ((es.appendAll sid msgs).append sid liveMsg).2 = msgs.length + 1 ∧
    (((es.appendAll sid msgs).append sid liveMsg).1).replayAfter sid k
      = numberFrom (k + 1) (msgs.drop k)
          ++ [(msgs.length + 1, liveMsg)] := by
  have hent : (es.appendAll sid msgs).entriesOf sid = numberFrom 1 msgs := by
    rw [appendAll_entriesOf, hfresh]
    simp
  have hreplay : (es.appendAll sid msgs).replayAfter sid k
      = numberFrom (k + 1) (msgs.drop k) := by
    rw [EventStore.replayAfter, hent, filter_numberFrom]
    by_cases h : k < 1
    · have hk0 : k = 0 := Nat.lt_one_iff.mp h
      subst hk0
      simp
    · simp [h]
  refine ⟨hreplay, ?_, ?_, ?_, ?_⟩
  · rw [hreplay, map_fst_numberFrom, List.length_drop]
  · rw [hreplay]
    exact pairwise_numberFrom (k + 1) (msgs.drop k)
  · simp [EventStore.append, hent]
  · have hlive : (((es.appendAll sid msgs).append sid liveMsg).1).entriesOf sid
        = numberFrom 1 msgs ++ [(msgs.length + 1, liveMsg)] := by
      have h₀ : (((es.appendAll sid msgs).append sid liveMsg).1).entriesOf sid
          = (es.appendAll sid msgs).entriesOf sid
              ++ [(((es.appendAll sid msgs).entriesOf sid).length + 1,
                   liveMsg)] := by
        simp [EventStore.append, EventStore.entriesOf]
      rw [h₀, hent]
      simp
    rw [EventStore.replayAfter, hlive, List.filter_append]
    have hkeep : List.filter (fun p => decide (k < p.1))
        [(msgs.length + 1, liveMsg)] = [(msgs.length + 1, liveMsg)] := by
      have hlt : k < msgs.length + 1 := Nat.lt_succ_of_le hk
      simp [List.filter, hlt]
    rw [hkeep]
    congr 1
    have := hreplay
    rw [EventStore.replayAfter, hent] at this
    exact this

/-- Witness for C5 at specification example scenario 5: two events appended
to stream `S`; a reconnect with last-event-id 1 replays only event 2, and a
live event then arrives as id 3, after the replayed one. -/
theorem C5_witness :
    (EventStore.mk Table.empty).entriesOf "S" = [] ∧
    ((EventStore.mk Table.empty).appendAll "S" ["e1", "e2"]).replayAfter "S" 1
      = [(2, "e2")] ∧
    (((EventStore.mk Table.empty).appendAll "S" ["e1", "e2"]).append "S"
        "e3").2 = 3 ∧
    ((((EventStore.mk Table.empty).appendAll "S" ["e1", "e2"]).append "S"
        "e3").1).replayAfter "S" 1 = [(2, "e2"), (3, "e3")] := by
  have h := C5_replay_after_reconnect (EventStore.mk Table.empty) "S"
    ["e1", "e2"] 1 "e3" rfl (by decide)
  exact ⟨rfl, by simpa [numberFrom] using h.1, by simpa using h.2.2.2.1,
    by simpa [numberFrom] using h.2.2.2.2⟩
